import Mathlib

/-!
Verification development for the photobooth gesture engine and compositor.

The definitions below are a shallow embedding of the JavaScript sources:

* `src/js/config.js`          — `CONFIG.UI` constants;
* `src/js/gesture-handler.js` — the `GestureHandler` class: pointer
  bookkeeping, hit-testing, gesture derivation, validation and application;
* `src/js/photobooth.js`      — the `PhotoboothController` class: prop
  management (`addProp`) and the compositor (`compositeImage`).

JavaScript numbers are modelled as real numbers.  The JS `Map` of active
pointers (insertion ordered) is modelled as a list of `Pointer` values with
unique ids; `Map.set` replaces in place or appends, `Map.delete` filters.
The canvas 2D context is modelled as a current affine transform, a stack of
saved transforms, and the list of `drawImage` calls that were issued, each
recorded together with the transform in force when it was issued.  A
`drawImage` on an image whose resource is in the broken state throws, which
the model renders as `Except.error`.
-/

namespace Photobooth

noncomputable section

/-- CONFIG.UI.MIN_SCALE from src/js/config.js (0.2). -/
def MIN_SCALE : ℝ := 0.2

/-- CONFIG.UI.MAX_SCALE from src/js/config.js (4.0). -/
def MAX_SCALE : ℝ := 4.0

/-- CONFIG.UI.STICKER_BASE_SIZE from src/js/config.js (220). -/
def STICKER_BASE_SIZE : ℝ := 220

/-- An image resource: intrinsic pixel dimensions plus whether its resource
is in the broken (failed-to-load) state, in which case `drawImage` throws. -/
structure Image where
  width : ℝ
  height : ℝ
  broken : Bool

/-- An active pointer sample, as built by `getPointerFromEvent` in
src/js/gesture-handler.js (the unused `timestamp` field is omitted). -/
structure Pointer where
  id : ℕ
  x : ℝ
  y : ℝ

/-- A prop object as built by `PhotoboothController.addProp`
(src/js/photobooth.js): id, image handle, pose (x, y, scale, rotation) and
intrinsic width/height.  The unused `name`/`src` strings are omitted. -/
structure PropItem where
  id : ℕ
  img : Image
  x : ℝ
  y : ℝ
  scale : ℝ
  rotation : ℝ
  width : ℝ
  height : ℝ

/-- The gesture descriptor stored in `this.lastGesture`
(src/js/gesture-handler.js): tagged `translate` or `transform` objects. -/
inductive Gesture where
  | translate (x y : ℝ)
  | transform (centerX centerY distance angle scale rotation : ℝ)

/-- Math.atan2, written with `Real.arctan` by case analysis on the
quadrant (signed zeros are not representable and are collapsed to 0). -/
def atan2 (y x : ℝ) : ℝ :=
  if 0 < x then Real.arctan (y / x)
  else if x < 0 then
    (if 0 ≤ y then Real.arctan (y / x) + Real.pi else Real.arctan (y / x) - Real.pi)
  else
    (if 0 < y then Real.pi / 2 else if y < 0 then -(Real.pi / 2) else 0)

/-- The inter-pointer distance computed in `computeTwoPointerGesture`
(src/js/gesture-handler.js): Math.sqrt(dx*dx + dy*dy). -/
def pointerDistance (p1 p2 : Pointer) : ℝ :=
  Real.sqrt ((p2.x - p1.x) * (p2.x - p1.x) + (p2.y - p1.y) * (p2.y - p1.y))

/-- Euclidean distance between two pointers, written with squares.  This is
the specification-side formulation used to state claims about
`pointerDistance`. -/
def euclidDist (p1 p2 : Pointer) : ℝ :=
  Real.sqrt ((p2.x - p1.x) ^ 2 + (p2.y - p1.y) ^ 2)

/-- GestureHandler.computeTwoPointerGesture (src/js/gesture-handler.js):
center = midpoint normalized by the canvas dimensions, distance = Euclidean
pixel distance, angle = atan2 of the delta, scale = distance / 100,
rotation = angle. -/
def computeTwoPointerGesture (W H : ℝ) (p1 p2 : Pointer) : Gesture :=
  .transform ((p1.x + p2.x) / 2 / W) ((p1.y + p2.y) / 2 / H)
    (pointerDistance p1 p2)
    (atan2 (p2.y - p1.y) (p2.x - p1.x))
    (pointerDistance p1 p2 / 100)
    (atan2 (p2.y - p1.y) (p2.x - p1.x))

/-- GestureHandler.isValidGesture (src/js/gesture-handler.js).  A falsy
gesture is invalid; a translate is valid when its coordinates lie in
[0, 1]; a transform is valid when its scale lies in
[MIN_SCALE, MAX_SCALE]. -/
def isValidGesture : Option Gesture → Bool
  | none => false
  | some (.translate x y) => decide (x ≥ 0 ∧ x ≤ 1 ∧ y ≥ 0 ∧ y ≤ 1)
  | some (.transform _ _ _ _ s _) => decide (s ≥ MIN_SCALE ∧ s ≤ MAX_SCALE)

/-- The effect of GestureHandler.applyGesture (src/js/gesture-handler.js)
on the selected prop object: translate clamps x/y into [0, 1]; transform
clamps x/y into [0, 1] and scale into [MIN_SCALE, MAX_SCALE] and stores the
rotation verbatim. -/
def applyGestureToProp (g : Gesture) (p : PropItem) : PropItem :=
  match g with
  | .translate gx gy =>
      { p with x := max 0 (min 1 gx), y := max 0 (min 1 gy) }
  | .transform cx cy _ _ gs gr =>
      { p with x := max 0 (min 1 cx), y := max 0 (min 1 cy),
               scale := max MIN_SCALE (min MAX_SCALE gs), rotation := gr }

/-- The combined mutable state read and written by the gesture handler:
the handler's `this.pointers` map (insertion-ordered) and
`this.lastGesture`, and the controller's `this.props` array and
`this.selectedProp` reference (modelled by the prop's id). -/
structure SysState where
  pointers : List Pointer
  lastGesture : Option Gesture
  props : List PropItem
  selectedProp : Option ℕ

/-- Map.set on the pointer map: replace in place when the id is present
(insertion order preserved), otherwise append. -/
def setPointer (ps : List Pointer) (p : Pointer) : List Pointer :=
  if ps.any (fun q => q.id == p.id) then
    ps.map (fun q => if q.id == p.id then p else q)
  else ps ++ [p]

/-- Map.delete on the pointer map. -/
def deletePointer (ps : List Pointer) (id : ℕ) : List Pointer :=
  ps.filter (fun q => q.id != id)

/-- Map.has on the pointer map. -/
def hasPointer (ps : List Pointer) (id : ℕ) : Bool :=
  ps.any (fun q => q.id == id)

/-- The containment test inside GestureHandler.findPropAtPosition
(src/js/gesture-handler.js): x >= left && x <= right && y >= top &&
y <= bottom, with left/right/top/bottom the axis-aligned box of
half-extents width*scale/2/offsetWidth and height*scale/2/offsetHeight
around (prop.x, prop.y).  The prop's rotation never enters the test. -/
def propContains (W H x y : ℝ) (prop : PropItem) : Prop :=
  prop.x - prop.width * prop.scale / 2 / W ≤ x ∧
  x ≤ prop.x + prop.width * prop.scale / 2 / W ∧
  prop.y - prop.height * prop.scale / 2 / H ≤ y ∧
  y ≤ prop.y + prop.height * prop.scale / 2 / H

instance (W H x y : ℝ) (prop : PropItem) : Decidable (propContains W H x y prop) := by
  unfold propContains
  infer_instance

/-- The loop of GestureHandler.findPropAtPosition, iterating the prop list
from the end (topmost first); first match wins. -/
def findPropIn (W H x y : ℝ) : List PropItem → Option PropItem
  | [] => none
  | prop :: rest =>
      if propContains W H x y prop then some prop
      else findPropIn W H x y rest

/-- GestureHandler.findPropAtPosition (src/js/gesture-handler.js):
check props in reverse order (top to bottom), first match wins. -/
def findPropAtPosition (W H : ℝ) (props : List PropItem) (x y : ℝ) : Option PropItem :=
  findPropIn W H x y props.reverse

/-- GestureHandler.handleSinglePointerDown (src/js/gesture-handler.js):
normalize the pointer position by the canvas dimensions, hit-test, and set
or clear the controller's selectedProp. -/
def handleSinglePointerDown (W H : ℝ) (ptr : Pointer) (s : SysState) : SysState :=
  match findPropAtPosition W H s.props (ptr.x / W) (ptr.y / H) with
  | some prop => { s with selectedProp := some prop.id }
  | none => { s with selectedProp := none }

/-- GestureHandler.updateGesture (src/js/gesture-handler.js): 0 pointers
clears the gesture, 1 pointer yields a normalized translate, 2 pointers
yield the two-pointer transform; with 3 or more pointers the retained
gesture is left unchanged (the source has no branch for that case). -/
def updateGesture (W H : ℝ) (s : SysState) : SysState :=
  match s.pointers with
  | [] => { s with lastGesture := none }
  | [p] => { s with lastGesture := some (.translate (p.x / W) (p.y / H)) }
  | [p1, p2] => { s with lastGesture := some (computeTwoPointerGesture W H p1 p2) }
  | _ => s

/-- GestureHandler.applyGesture (src/js/gesture-handler.js): a no-op unless
both a retained gesture and a selected prop exist; otherwise the gesture is
applied to the selected prop's pose (the prop object lives in the
controller's props array, modelled by updating the entry with the selected
id). -/
def applyGesture (s : SysState) : SysState :=
  match s.lastGesture, s.selectedProp with
  | some g, some selId =>
      { s with props := s.props.map (fun p =>
          if p.id == selId then applyGestureToProp g p else p) }
  | _, _ => s

/-- GestureHandler.handlePointerDown (src/js/gesture-handler.js): register
the pointer; if it is the only active pointer, run the selection hit-test;
then recompute the gesture. -/
def handlePointerDown (W H : ℝ) (id : ℕ) (x y : ℝ) (s : SysState) : SysState :=
  let ptr : Pointer := ⟨id, x, y⟩
  let s1 := { s with pointers := setPointer s.pointers ptr }
  let s2 := if s1.pointers.length = 1 then handleSinglePointerDown W H ptr s1 else s1
  updateGesture W H s2

/-- GestureHandler.handlePointerMove (src/js/gesture-handler.js): ignore
untracked ids, otherwise update the pointer, recompute the gesture, and
apply it. -/
def handlePointerMove (W H : ℝ) (id : ℕ) (x y : ℝ) (s : SysState) : SysState :=
  if hasPointer s.pointers id then
    applyGesture (updateGesture W H { s with pointers := setPointer s.pointers ⟨id, x, y⟩ })
  else s

/-- GestureHandler.handlePointerUp (src/js/gesture-handler.js): remove the
pointer; when no pointer remains the retained gesture is cleared, otherwise
the gesture is recomputed. -/
def handlePointerUp (W H : ℝ) (id : ℕ) (s : SysState) : SysState :=
  let s1 := { s with pointers := deletePointer s.pointers id }
  if s1.pointers.length = 0 then { s1 with lastGesture := none }
  else updateGesture W H s1

/-- GestureHandler.handlePointerCancel delegates to handlePointerUp. -/
def handlePointerCancel (W H : ℝ) (id : ℕ) (s : SysState) : SysState :=
  handlePointerUp W H id s

/-- A pointer lifecycle event delivered to the gesture handler. -/
inductive PEvent where
  | down (id : ℕ) (x y : ℝ)
  | move (id : ℕ) (x y : ℝ)
  | up (id : ℕ)
  | cancel (id : ℕ)

/-- Dispatch one pointer event to its handler. -/
def step (W H : ℝ) (s : SysState) : PEvent → SysState
  | .down id x y => handlePointerDown W H id x y s
  | .move id x y => handlePointerMove W H id x y s
  | .up id => handlePointerUp W H id s
  | .cancel id => handlePointerCancel W H id s

/-- Process a sequence of pointer events. -/
def run (W H : ℝ) (s : SysState) (seq : List PEvent) : SysState :=
  seq.foldl (step W H) s

/-- The state of a fresh handler/controller pair: no pointers, no gesture,
no props, no selection. -/
def initState : SysState := ⟨[], none, [], none⟩

/-- The prop object literal built by PhotoboothController.addProp
(src/js/photobooth.js): centered pose (0.5, 0.5), unit scale, zero
rotation, width STICKER_BASE_SIZE and height scaled by the image's aspect
ratio. -/
def newPropObj (newId : ℕ) (img : Image) : PropItem :=
  { id := newId, img := img, x := 0.5, y := 0.5, scale := 1, rotation := 0,
    width := STICKER_BASE_SIZE,
    height := STICKER_BASE_SIZE * (img.height / img.width) }

/-- PhotoboothController.addProp (src/js/photobooth.js): on a successful
image load, push the new prop and set this.selectedProp to it; on a load
failure the error is caught and logged and the state is unchanged. -/
def addProp (loadResult : Except Unit Image) (newId : ℕ) (s : SysState) : SysState :=
  match loadResult with
  | .ok img =>
      { s with props := s.props ++ [newPropObj newId img],
               selectedProp := some (newPropObj newId img).id }
  | .error _ => s

/-- The 200 by 100 prop of the hit-testing claim: centered at (0.5, 0.5),
unit scale, rotated by pi/2. -/
def hitProp : PropItem :=
  ⟨0, ⟨200, 100, false⟩, 1 / 2, 1 / 2, 1, Real.pi / 2, 200, 100⟩

/-- The image of the selection-exclusivity scenario. -/
def selImg : Image := ⟨100, 100, false⟩

/-- An already-placed, currently selected prop. -/
def selProp : PropItem := ⟨0, selImg, 0.5, 0.5, 1, 0, 220, 220⟩

/-- A state in which selProp is placed and selected. -/
def selState : SysState := ⟨[], none, [selProp], some 0⟩

/-- The selected prop of the invalid-gesture scenario. -/
def invProp : PropItem := ⟨0, ⟨100, 100, false⟩, 0.5, 0.5, 1, 0, 220, 220⟩

/-- State with one active pointer (id 7) and invProp selected. -/
def invState : SysState :=
  ⟨[⟨7, 500, 500⟩], some (.translate 0.5 0.5), [invProp], some 0⟩

/-- A 2D affine transform, the matrix (a c e / b d f) of the canvas 2D
context. -/
structure AffineT where
  a : ℝ
  b : ℝ
  c : ℝ
  d : ℝ
  e : ℝ
  f : ℝ

/-- The identity transform (the context's default). -/
def AffineT.id : AffineT := ⟨1, 0, 0, 1, 0, 0⟩

/-- Matrix product of two affine transforms. -/
def AffineT.mul (M N : AffineT) : AffineT :=
  ⟨M.a * N.a + M.c * N.b, M.b * N.a + M.d * N.b,
   M.a * N.c + M.c * N.d, M.b * N.c + M.d * N.d,
   M.a * N.e + M.c * N.f + M.e, M.b * N.e + M.d * N.f + M.f⟩

/-- ctx.translate composes the current transform with a translation. -/
def AffineT.translateOp (M : AffineT) (tx ty : ℝ) : AffineT :=
  M.mul ⟨1, 0, 0, 1, tx, ty⟩

/-- ctx.rotate composes the current transform with a rotation. -/
def AffineT.rotateOp (M : AffineT) (t : ℝ) : AffineT :=
  M.mul ⟨Real.cos t, Real.sin t, -Real.sin t, Real.cos t, 0, 0⟩

/-- ctx.scale composes the current transform with a scaling. -/
def AffineT.scaleOp (M : AffineT) (sx sy : ℝ) : AffineT :=
  M.mul ⟨sx, 0, 0, sy, 0, 0⟩

/-- One issued ctx.drawImage call: the image, the destination rectangle
(dx, dy, dw, dh), and the transform in force when the call was issued. -/
structure DrawCall where
  img : Image
  dx : ℝ
  dy : ℝ
  dw : ℝ
  dh : ℝ
  transform : AffineT

/-- The canvas 2D context: current transform, the save/restore stack, and
the list of issued draw calls, in order. -/
structure Ctx where
  transform : AffineT
  stack : List AffineT
  calls : List DrawCall

/-- ctx.save pushes the current transform. -/
def Ctx.save (c : Ctx) : Ctx := { c with stack := c.transform :: c.stack }

/-- ctx.restore pops the stack into the current transform (a no-op on an
empty stack, as in the canvas API). -/
def Ctx.restore (c : Ctx) : Ctx :=
  match c.stack with
  | [] => c
  | t :: rest => { c with transform := t, stack := rest }

/-- ctx.translate. -/
def Ctx.translate (c : Ctx) (tx ty : ℝ) : Ctx :=
  { c with transform := c.transform.translateOp tx ty }

/-- ctx.rotate. -/
def Ctx.rotate (c : Ctx) (t : ℝ) : Ctx :=
  { c with transform := c.transform.rotateOp t }

/-- ctx.scale. -/
def Ctx.scaleBy (c : Ctx) (sx sy : ℝ) : Ctx :=
  { c with transform := c.transform.scaleOp sx sy }

/-- ctx.drawImage: throws when the image resource is in the broken state,
otherwise records the draw call under the current transform. -/
def Ctx.drawImageE (c : Ctx) (img : Image) (dx dy dw dh : ℝ) : Except Unit Ctx :=
  if img.broken then .error ()
  else .ok { c with calls := c.calls ++ [⟨img, dx, dy, dw, dh, c.transform⟩] }

/-- The per-prop body of the draw loop in
PhotoboothController.compositeImage (src/js/photobooth.js): compute the
top-left corner, save, translate to the center, rotate, scale, drawImage
centered, restore.  A throwing drawImage is caught by the surrounding
try/catch, in which case the function returns with the translate/rotate/
scale still applied and the saved transform still on the stack, because
ctx.restore() sits after ctx.drawImage() inside the try block. -/
def drawPropStep (W H : ℝ) (ctx : Ctx) (prop : PropItem) : Ctx :=
  let x := prop.x * W - prop.width * prop.scale / 2
  let y := prop.y * H - prop.height * prop.scale / 2
  let c4 := (((ctx.save).translate (x + prop.width * prop.scale / 2)
      (y + prop.height * prop.scale / 2)).rotate prop.rotation).scaleBy
      prop.scale prop.scale
  match c4.drawImageE prop.img (-prop.width / 2) (-prop.height / 2)
      prop.width prop.height with
  | .ok c5 => c5.restore
  | .error _ => c4

/-- PhotoboothController.compositeImage (src/js/photobooth.js).  The
captured photo's load result is awaited first: a load failure propagates
to the caller.  The canvas is sized to the photo, the photo drawn at
(0, 0) (the three-argument drawImage form, i.e. at its natural size), then
the overlay — whose load failure or draw throw is caught and logged,
composition continuing without it — stretched to the full canvas, then
each prop in list order via drawPropStep. -/
def compositeImage (loadPhoto : Except Unit Image)
    (overlay : Option (Except Unit Image)) (props : List PropItem) :
    Except Unit Ctx :=
  match loadPhoto with
  | .error e => .error e
  | .ok photoImg =>
      match Ctx.drawImageE ⟨AffineT.id, [], []⟩ photoImg 0 0
          photoImg.width photoImg.height with
      | .error e => .error e
      | .ok ctx1 =>
          let ctx2 := match overlay with
            | none => ctx1
            | some ovLoad =>
                match ovLoad with
                | .error _ => ctx1
                | .ok ovImg =>
                    match ctx1.drawImageE ovImg 0 0 photoImg.width
                        photoImg.height with
                    | .error _ => ctx1
                    | .ok c => c
          .ok (props.foldl (drawPropStep photoImg.width photoImg.height) ctx2)

/-- The transform the specification prescribes for a prop: translate to
(pose.x * W, pose.y * H), rotate by pose.rotation, scale by pose.scale. -/
def specPropTransform (W H : ℝ) (p : PropItem) : AffineT :=
  ((AffineT.id.translateOp (p.x * W) (p.y * H)).rotateOp p.rotation).scaleOp
    p.scale p.scale

/-- The draw call the specification prescribes for a prop: its image drawn
centered, at intrinsic extents, under specPropTransform. -/
def specPropCall (W H : ℝ) (p : PropItem) : DrawCall :=
  ⟨p.img, -p.width / 2, -p.height / 2, p.width, p.height,
   specPropTransform W H p⟩

/-- The captured photo of the overlay-failure scenario. -/
def photo3 : Image := ⟨1000, 1000, false⟩

/-- The single prop of the composition-order witness scenario. -/
def orderProp : PropItem := ⟨5, ⟨64, 64, false⟩, 1 / 2, 1 / 2, 1, 0, 200, 100⟩

/-- The captured photo of the broken-prop scenario. -/
def photo6 : Image := ⟨1000, 1000, false⟩

/-- A loaded prop image. -/
def okImg : Image := ⟨100, 100, false⟩

/-- A perpetually failing (broken) prop image: drawImage on it throws. -/
def badImg : Image := ⟨100, 100, true⟩

/-- Prop 1: centered at (0.25, 0.25), loaded image. -/
def prop61 : PropItem := ⟨1, okImg, 1 / 4, 1 / 4, 1, 0, 200, 100⟩

/-- Prop 2: centered at (0.5, 0.5), broken image. -/
def prop62 : PropItem := ⟨2, badImg, 1 / 2, 1 / 2, 1, 0, 200, 100⟩

/-- Prop 3: centered at (0.5, 0.5), loaded image. -/
def prop63 : PropItem := ⟨3, okImg, 1 / 2, 1 / 2, 1, 0, 200, 100⟩

/-- C7: for every applied gesture and selected prop, a translate sets the
pose x/y to the pointer position clamped into [0, 1] (never rejected); a
transform sets x/y to the clamped center, scale to the gesture scale
clamped into [MIN_SCALE, MAX_SCALE] — a raw scale of 1/10 with MIN_SCALE
1/5 yields exactly 1/5 — and rotation to the gesture rotation verbatim. -/
theorem applyGestureToProp_spec :
    MIN_SCALE = 1 / 5 ∧ MAX_SCALE = 4 ∧
    (∀ (p : PropItem) (gx gy : ℝ),
      applyGestureToProp (.translate gx gy) p =
        { p with x := max 0 (min 1 gx), y := max 0 (min 1 gy) }) ∧
    (∀ (p : PropItem) (cx cy d a gs gr : ℝ),
      applyGestureToProp (.transform cx cy d a gs gr) p =
        { p with x := max 0 (min 1 cx), y := max 0 (min 1 cy),
                 scale := max MIN_SCALE (min MAX_SCALE gs), rotation := gr }) ∧
    (∀ (p : PropItem) (cx cy d a gr : ℝ),
      (applyGestureToProp (.transform cx cy d a (1 / 10) gr) p).scale = 1 / 5) ∧
    (∀ (p : PropItem) (cx cy d a gs gr : ℝ),
      (applyGestureToProp (.transform cx cy d a gs gr) p).rotation = gr) := by
  refine ⟨by norm_num [MIN_SCALE], by norm_num [MAX_SCALE], fun p gx gy => rfl,
    fun p cx cy d a gs gr => rfl, fun p cx cy d a gr => ?_,
    fun p cx cy d a gs gr => rfl⟩
  show max MIN_SCALE (min MAX_SCALE (1 / 10)) = 1 / 5
  rw [MIN_SCALE, MAX_SCALE]
  rw [min_eq_right (by norm_num : (1 : ℝ) / 10 ≤ 4.0)]
  rw [max_eq_left (by norm_num : (1 : ℝ) / 10 ≤ 0.2)]
  norm_num

/-- C8: the raw two-pointer transform scale equals the Euclidean pixel
distance between the pointers divided by the fixed reference distance of
100 px, and doubling the inter-pointer distance exactly doubles the raw
scale (no prop state enters the computation). -/
theorem twoPointerGesture_scale_spec (W H : ℝ) (p1 p2 q1 q2 : Pointer) :
    pointerDistance p1 p2 = euclidDist p1 p2 ∧
    computeTwoPointerGesture W H p1 p2 =
      .transform ((p1.x + p2.x) / 2 / W) ((p1.y + p2.y) / 2 / H)
        (euclidDist p1 p2) (atan2 (p2.y - p1.y) (p2.x - p1.x))
        (euclidDist p1 p2 / 100) (atan2 (p2.y - p1.y) (p2.x - p1.x)) ∧
    (euclidDist q1 q2 = 2 * euclidDist p1 p2 →
      pointerDistance q1 q2 / 100 = 2 * (pointerDistance p1 p2 / 100)) := by
  have hd : ∀ a b : Pointer, pointerDistance a b = euclidDist a b := by
    intro a b
    unfold pointerDistance euclidDist
    ring_nf
  refine ⟨hd p1 p2, ?_, ?_⟩
  · rw [computeTwoPointerGesture, hd p1 p2]
  · intro h
    rw [hd q1 q2, hd p1 p2, h]
    ring

/-- Witness for twoPointerGesture_scale_spec: pointers at (0,0) and (30,40)
are 50 px apart, pointers at (0,0) and (60,80) are 100 px apart; the raw
scale doubles from 1/2 to 1. -/
theorem twoPointerGesture_scale_spec_witness :
    euclidDist ⟨2, 0, 0⟩ ⟨3, 60, 80⟩ = 2 * euclidDist ⟨0, 0, 0⟩ ⟨1, 30, 40⟩ ∧
    pointerDistance ⟨2, 0, 0⟩ ⟨3, 60, 80⟩ / 100 =
      2 * (pointerDistance ⟨0, 0, 0⟩ ⟨1, 30, 40⟩ / 100) := by
  have h : euclidDist ⟨2, 0, 0⟩ ⟨3, 60, 80⟩ = 2 * euclidDist ⟨0, 0, 0⟩ ⟨1, 30, 40⟩ := by
    unfold euclidDist
    rw [show ((60 : ℝ) - 0) ^ 2 + ((80 : ℝ) - 0) ^ 2 = 100 ^ 2 by norm_num]
    rw [show ((30 : ℝ) - 0) ^ 2 + ((40 : ℝ) - 0) ^ 2 = 50 ^ 2 by norm_num]
    rw [Real.sqrt_sq (by norm_num : (0 : ℝ) ≤ 100)]
    rw [Real.sqrt_sq (by norm_num : (0 : ℝ) ≤ 50)]
    norm_num
  exact ⟨h, (twoPointerGesture_scale_spec 1000 1000 ⟨0, 0, 0⟩ ⟨1, 30, 40⟩
    ⟨2, 0, 0⟩ ⟨3, 60, 80⟩).2.2 h⟩

/-- Updating a prop's rotation does not change the containment test. -/
lemma propContains_update_rotation (W H x y : ℝ) (p : PropItem) (r : ℝ) :
    propContains W H x y { p with rotation := r } ↔ propContains W H x y p :=
  Iff.rfl

/-- The hit-test loop is invariant under arbitrary changes of rotations. -/
lemma findPropIn_rotation_invariant (W H x y : ℝ) (f : PropItem → ℝ)
    (l : List PropItem) :
    findPropIn W H x y (l.map fun p => { p with rotation := f p }) =
      (findPropIn W H x y l).map fun p => { p with rotation := f p } := by
  induction l with
  | nil => rfl
  | cons prop rest ih =>
      rw [List.map_cons, findPropIn, findPropIn]
      simp only [propContains_update_rotation]
      by_cases h : propContains W H x y prop
      · rw [if_pos h, if_pos h, Option.map_some']
      · rw [if_neg h, if_neg h, ih]

/-- Claim C1 counterexample: on a 1000 by 1000 canvas the 200 by 100 prop
centered at (0.5, 0.5) with rotation pi/2 reports a MISS at normalized
point (0.5, 0.59) — the claim asserts a hit there — and a HIT at
(0.59, 0.5) — the claim asserts a miss there: the containment test uses
the unrotated axis-aligned box. -/
theorem findPropAtPosition_rotation_unaware_cex :
    findPropAtPosition 1000 1000 [hitProp] (1 / 2) (59 / 100) = none ∧
    findPropAtPosition 1000 1000 [hitProp] (59 / 100) (1 / 2) = some hitProp := by
  constructor
  · rw [findPropAtPosition, List.reverse_singleton, findPropIn, if_neg]
    · rfl
    · rw [propContains]
      push_neg
      intro _ _ _
      show (1 : ℝ) / 2 + hitProp.height * hitProp.scale / 2 / 1000 < 59 / 100
      norm_num [hitProp]
  · rw [findPropAtPosition, List.reverse_singleton, findPropIn, if_pos]
    rw [propContains]
    refine ⟨?_, ?_, ?_, ?_⟩ <;> norm_num [hitProp]

/-- Claim C1 amended: hit-testing on pointer-down ignores rotation — the
result of findPropAtPosition is invariant under arbitrary changes of the
props' rotations — and for the concrete 200 by 100 prop centered at
(0.5, 0.5) with rotation pi/2 on a 1000 by 1000 canvas it reports a miss
at (0.5, 0.59) and a hit at (0.59, 0.5). -/
theorem findPropAtPosition_axis_aligned :
    (∀ (W H : ℝ) (props : List PropItem) (f : PropItem → ℝ) (x y : ℝ),
      findPropAtPosition W H (props.map fun p => { p with rotation := f p }) x y =
        (findPropAtPosition W H props x y).map fun p => { p with rotation := f p }) ∧
    findPropAtPosition 1000 1000 [hitProp] (1 / 2) (59 / 100) = none ∧
    findPropAtPosition 1000 1000 [hitProp] (59 / 100) (1 / 2) = some hitProp := by
  refine ⟨?_, ?_, ?_⟩
  · intro W H props f x y
    rw [findPropAtPosition, findPropAtPosition, ← List.map_reverse]
    exact findPropIn_rotation_invariant W H x y f props.reverse
  · rw [findPropAtPosition, List.reverse_singleton, findPropIn, if_neg]
    · rfl
    · rw [propContains]
      push_neg
      intro _ _ _
      show (1 : ℝ) / 2 + hitProp.height * hitProp.scale / 2 / 1000 < 59 / 100
      norm_num [hitProp]
  · rw [findPropAtPosition, List.reverse_singleton, findPropIn, if_pos]
    rw [propContains]
    refine ⟨?_, ?_, ?_, ?_⟩ <;> norm_num [hitProp]

/-- Claim C2 counterexample: with prop 0 selected, addProp of a new prop
(id 1) changes the controller's selection to the new prop instead of
leaving it unchanged. -/
theorem addProp_changes_selection_cex :
    selState.selectedProp = some 0 ∧
    (addProp (.ok selImg) 1 selState).selectedProp = some 1 ∧
    (addProp (.ok selImg) 1 selState).selectedProp ≠ selState.selectedProp := by
  refine ⟨rfl, rfl, ?_⟩
  simp [addProp, selState, newPropObj]

/-- Claim C2 amended: addProp on a successful load appends the new prop
and sets the selection to it (replacing any previous selection); on a load
failure the state is unchanged; and a single-pointer down sets the
selection to the hit prop's id, or clears it on a miss. -/
theorem addProp_selects_new_prop :
    (∀ (s : SysState) (img : Image) (newId : ℕ),
      (addProp (.ok img) newId s).selectedProp = some newId ∧
      (addProp (.ok img) newId s).props = s.props ++ [newPropObj newId img] ∧
      addProp (.error ()) newId s = s) ∧
    (∀ (W H : ℝ) (ptr : Pointer) (s : SysState),
      (handleSinglePointerDown W H ptr s).selectedProp =
        Option.map PropItem.id
          (findPropAtPosition W H s.props (ptr.x / W) (ptr.y / H))) := by
  refine ⟨fun s img newId => ⟨rfl, rfl, rfl⟩, ?_⟩
  intro W H ptr s
  rw [handleSinglePointerDown]
  cases h : findPropAtPosition W H s.props (ptr.x / W) (ptr.y / H) <;> simp

/-- Claim C4 counterexample: a pointer-move to canvas position (1500, 500)
on a 1000 by 1000 canvas derives the translate gesture (1.5, 0.5), which
is outside the declared [0,1] range (isValidGesture is false), yet the
update is NOT discarded: the selected prop's pose x is clamped to 1 and
applied, so the prior pose is not retained. -/
theorem invalid_gesture_applied_cex :
    isValidGesture (some (.translate (1500 / 1000 : ℝ) (500 / 1000))) = false ∧
    (step 1000 1000 invState (.move 7 1500 500)).lastGesture =
      some (.translate (1500 / 1000) (500 / 1000)) ∧
    (step 1000 1000 invState (.move 7 1500 500)).props =
      [{ invProp with x := 1, y := 1 / 2 }] ∧
    ({ invProp with x := 1, y := 1 / 2 } : PropItem).x ≠ invProp.x := by
  refine ⟨?_, ?_, ?_, ?_⟩
  · rw [isValidGesture, decide_eq_false_iff_not]
    push_neg
    intro _ h
    exact absurd h (by norm_num)
  · simp [step, handlePointerMove, hasPointer, setPointer, updateGesture,
      applyGesture, invState]
  · simp only [step, handlePointerMove, hasPointer, setPointer, updateGesture,
      applyGesture, applyGestureToProp, invState, invProp]
    norm_num
  · show (1 : ℝ) ≠ invProp.x
    norm_num [invProp]

/-- Claim C4 amended: an out-of-range gesture is not discarded — the
gesture is always applied with translate coordinates clamped into [0, 1]
(isValidGesture exists in the source but is never consulted on the update
path): in the concrete scenario the gesture (1.5, 0.5) is invalid yet the
selected prop's pose becomes x = 1 (clamped), not the retained 0.5. -/
theorem applyGesture_clamps_not_discards :
    (∀ (gx gy : ℝ) (p : PropItem),
      applyGestureToProp (.translate gx gy) p =
        { p with x := max 0 (min 1 gx), y := max 0 (min 1 gy) }) ∧
    isValidGesture (some (.translate (1500 / 1000 : ℝ) (500 / 1000))) = false ∧
    (step 1000 1000 invState (.move 7 1500 500)).props =
      [{ invProp with x := 1, y := 1 / 2 }] := by
  refine ⟨fun gx gy p => rfl, ?_, ?_⟩
  · rw [isValidGesture, decide_eq_false_iff_not]
    push_neg
    intro _ h
    exact absurd h (by norm_num)
  · simp only [step, handlePointerMove, hasPointer, setPointer, updateGesture,
      applyGesture, applyGestureToProp, invState, invProp]
    norm_num

/-- Claim C3 counterexample: with a 1000 by 1000 captured photo and an
active overlay whose image resource fails to load, compositeImage does NOT
fail — it returns successfully with only the photo drawn, so the error is
absorbed and composition continues without the overlay. -/
theorem compositeImage_overlay_failure_absorbed_cex :
    compositeImage (.ok photo3) (some (.error ())) [] =
      .ok ⟨AffineT.id, [], [⟨photo3, 0, 0, 1000, 1000, AffineT.id⟩]⟩ ∧
    compositeImage (.ok photo3) (some (.error ())) [] ≠ .error () := by
  have h1 : compositeImage (.ok photo3) (some (.error ())) [] =
      .ok ⟨AffineT.id, [], [⟨photo3, 0, 0, 1000, 1000, AffineT.id⟩]⟩ := rfl
  refine ⟨h1, ?_⟩
  rw [h1]
  intro h
  exact Except.noConfusion h

/-- Claim C3 amended: a load failure of the captured frame is surfaced to
the caller, but a load failure of the active overlay is caught and logged
and composition proceeds exactly as if no overlay were active. -/
theorem compositeImage_overlay_failure_behavior :
    (∀ (e : Unit) (overlay : Option (Except Unit Image)) (props : List PropItem),
      compositeImage (.error e) overlay props = .error e) ∧
    (∀ (photoImg : Image) (props : List PropItem),
      compositeImage (.ok photoImg) (some (.error ())) props =
        compositeImage (.ok photoImg) none props) := by
  refine ⟨fun e overlay props => rfl, fun photoImg props => ?_⟩
  cases h : Ctx.drawImageE ⟨AffineT.id, [], []⟩ photoImg 0 0
      photoImg.width photoImg.height with
  | error e => simp [compositeImage, h]
  | ok ctx1 => simp [compositeImage, h]

/-- One step of the prop draw loop on a non-broken image, starting from a
balanced context at the identity transform: the saved transform is
restored and exactly the specified draw call is appended. -/
lemma drawPropStep_ok (W H : ℝ) (c : Ctx) (p : PropItem)
    (hb : p.img.broken = false) (hc : c.transform = AffineT.id) :
    drawPropStep W H c p = { c with calls := c.calls ++ [specPropCall W H p] } := by
  have harg1 : p.x * W - p.width * p.scale / 2 + p.width * p.scale / 2 = p.x * W := by
    ring
  have harg2 : p.y * H - p.height * p.scale / 2 + p.height * p.scale / 2 = p.y * H := by
    ring
  simp only [drawPropStep, Ctx.save, Ctx.translate, Ctx.rotate, Ctx.scaleBy,
    Ctx.drawImageE, hb, Bool.false_eq_true, if_false, Ctx.restore,
    harg1, harg2, hc]
  rfl

/-- The prop draw loop over a list of non-broken props, starting from a
balanced context at the identity transform, appends exactly the specified
draw calls in list order and leaves the transform and stack unchanged. -/
lemma foldl_drawPropStep (W H : ℝ) (props : List PropItem) :
    ∀ c : Ctx, (∀ p ∈ props, p.img.broken = false) → c.transform = AffineT.id →
      props.foldl (drawPropStep W H) c =
        { c with calls := c.calls ++ props.map (specPropCall W H) } := by
  induction props with
  | nil => intro c _ _; simp
  | cons p rest ih =>
      intro c hall hc
      rw [List.foldl_cons, drawPropStep_ok W H c p (hall p (by simp)) hc]
      rw [ih ⟨c.transform, c.stack, c.calls ++ [specPropCall W H p]⟩
        (fun q hq => hall q (by simp [hq])) hc]
      simp

/-- C5: with the photo loaded and every image non-broken, composition
draws, in this exact order, the captured frame at (0, 0), the overlay (if
active) stretched to the full output dimensions, then each prop in
ascending insertion order centered at (pose.x * W, pose.y * H), rotated by
pose.rotation and scaled by pose.scale, with the transform restored after
each prop (final transform is the identity and the save stack is empty, so
no transform leaks between props). -/
theorem compositeImage_order (photoImg : Image) (overlay : Option Image)
    (props : List PropItem)
    (hall : ∀ p ∈ props, p.img.broken = false)
    (hphoto : photoImg.broken = false)
    (hov : ∀ ov ∈ overlay, ov.broken = false) :
    compositeImage (.ok photoImg) (overlay.map Except.ok) props =
      .ok { transform := AffineT.id, stack := [],
            calls := ⟨photoImg, 0, 0, photoImg.width, photoImg.height, AffineT.id⟩ ::
              ((overlay.map fun ov =>
                  (⟨ov, 0, 0, photoImg.width, photoImg.height, AffineT.id⟩ : DrawCall)).toList ++
               props.map (specPropCall photoImg.width photoImg.height)) } := by
  cases overlay with
  | none =>
      simp only [compositeImage, Ctx.drawImageE, hphoto, Bool.false_eq_true,
        if_false, List.nil_append, Option.map_none', Option.toList_none]
      rw [foldl_drawPropStep photoImg.width photoImg.height props _ hall rfl]
      simp
  | some ov =>
      have hovb : ov.broken = false := hov ov (by simp)
      simp only [compositeImage, Ctx.drawImageE, hphoto, hovb, Bool.false_eq_true,
        if_false, List.nil_append, Option.map_some', Option.toList_some]
      rw [foldl_drawPropStep photoImg.width photoImg.height props _ hall rfl]
      simp

/-- Witness for compositeImage_order: a concrete 1000 by 1000 photo, an
800 by 600 overlay and one prop, all loaded, composite to photo then
overlay then the prop's specified call. -/
theorem compositeImage_order_witness :
    (∀ p ∈ ([orderProp] : List PropItem), p.img.broken = false) ∧
    (⟨1000, 1000, false⟩ : Image).broken = false ∧
    (∀ ov ∈ some (⟨800, 600, false⟩ : Image), ov.broken = false) ∧
    compositeImage (.ok ⟨1000, 1000, false⟩)
        ((some (⟨800, 600, false⟩ : Image)).map Except.ok) [orderProp] =
      .ok { transform := AffineT.id, stack := [],
            calls := [⟨⟨1000, 1000, false⟩, 0, 0, 1000, 1000, AffineT.id⟩,
                      ⟨⟨800, 600, false⟩, 0, 0, 1000, 1000, AffineT.id⟩,
                      specPropCall 1000 1000 orderProp] } := by
  have h1 : ∀ p ∈ ([orderProp] : List PropItem), p.img.broken = false := by
    intro p hp
    rw [List.mem_singleton] at hp
    rw [hp]
    rfl
  have h3 : ∀ ov ∈ some (⟨800, 600, false⟩ : Image), ov.broken = false := by
    intro ov hov
    rw [Option.mem_def, Option.some_inj] at hov
    rw [← hov]
  exact ⟨h1, rfl, h3,
    compositeImage_order ⟨1000, 1000, false⟩ (some ⟨800, 600, false⟩) [orderProp]
      h1 rfl h3⟩

/-- C6: when prop 2 of 3 has a broken image resource, its drawImage throw
is caught and the prop skipped, and the frame, prop 1 and prop 3 are still
drawn in order — but prop 2's translate/rotate/scale are NOT undone (the
restore sits after drawImage inside the try block), so prop 3 is drawn
under the leaked transform at translation (1000, 1000) instead of its
specified (500, 500), and the context ends with a leaked transform and an
unbalanced save stack. -/
theorem compositeImage_broken_prop_transform_leak :
    compositeImage (.ok photo6) none [prop61, prop62, prop63] =
      .ok { transform := ⟨1, 0, 0, 1, 500, 500⟩,
            stack := [AffineT.id],
            calls := [⟨photo6, 0, 0, 1000, 1000, AffineT.id⟩,
                      ⟨okImg, -100, -50, 200, 100, ⟨1, 0, 0, 1, 250, 250⟩⟩,
                      ⟨okImg, -100, -50, 200, 100, ⟨1, 0, 0, 1, 1000, 1000⟩⟩] } ∧
    (specPropCall 1000 1000 prop63).transform = ⟨1, 0, 0, 1, 500, 500⟩ := by
  constructor
  · norm_num [compositeImage, drawPropStep, Ctx.save, Ctx.restore, Ctx.translate,
      Ctx.rotate, Ctx.scaleBy, Ctx.drawImageE, AffineT.mul, AffineT.translateOp,
      AffineT.rotateOp, AffineT.scaleOp, AffineT.id, photo6, okImg, badImg,
      prop61, prop62, prop63, Real.cos_zero, Real.sin_zero, List.foldl,
      DrawCall.mk.injEq, AffineT.mk.injEq, Ctx.mk.injEq]
  · norm_num [specPropCall, specPropTransform, prop63, AffineT.mul,
      AffineT.translateOp, AffineT.rotateOp, AffineT.scaleOp, AffineT.id,
      Real.cos_zero, Real.sin_zero, AffineT.mk.injEq]

/-- updateGesture only writes lastGesture. -/
lemma updateGesture_pointers (W H : ℝ) (s : SysState) :
    (updateGesture W H s).pointers = s.pointers := by
  obtain ⟨ps, g, pr, sel⟩ := s
  rcases ps with _ | ⟨p, _ | ⟨q, _ | ⟨r, t⟩⟩⟩ <;> rfl

/-- updateGesture leaves the props untouched. -/
lemma updateGesture_props (W H : ℝ) (s : SysState) :
    (updateGesture W H s).props = s.props := by
  obtain ⟨ps, g, pr, sel⟩ := s
  rcases ps with _ | ⟨p, _ | ⟨q, _ | ⟨r, t⟩⟩⟩ <;> rfl

/-- updateGesture leaves the selection untouched. -/
lemma updateGesture_selectedProp (W H : ℝ) (s : SysState) :
    (updateGesture W H s).selectedProp = s.selectedProp := by
  obtain ⟨ps, g, pr, sel⟩ := s
  rcases ps with _ | ⟨p, _ | ⟨q, _ | ⟨r, t⟩⟩⟩ <;> rfl

/-- applyGesture only writes the props. -/
lemma applyGesture_pointers (s : SysState) :
    (applyGesture s).pointers = s.pointers := by
  obtain ⟨ps, g, pr, sel⟩ := s
  rcases g with _ | g <;> rcases sel with _ | i <;> rfl

/-- handleSinglePointerDown only writes the selection. -/
lemma handleSinglePointerDown_pointers (W H : ℝ) (ptr : Pointer) (s : SysState) :
    (handleSinglePointerDown W H ptr s).pointers = s.pointers := by
  rw [handleSinglePointerDown]
  cases findPropAtPosition W H s.props (ptr.x / W) (ptr.y / H) <;> rfl

/-- handleSinglePointerDown leaves the props untouched. -/
lemma handleSinglePointerDown_props (W H : ℝ) (ptr : Pointer) (s : SysState) :
    (handleSinglePointerDown W H ptr s).props = s.props := by
  rw [handleSinglePointerDown]
  cases findPropAtPosition W H s.props (ptr.x / W) (ptr.y / H) <;> rfl

/-- Map.set never produces an empty pointer map. -/
lemma setPointer_ne_nil (ps : List Pointer) (p : Pointer) :
    setPointer ps p ≠ [] := by
  rw [setPointer]
  split
  · rename_i h
    intro hnil
    rw [List.map_eq_nil_iff] at hnil
    rw [hnil] at h
    exact Bool.noConfusion h
  · simp

/-- The pointer map after a pointer-down is the registered map. -/
lemma handlePointerDown_pointers (W H : ℝ) (id : ℕ) (x y : ℝ) (s : SysState) :
    (handlePointerDown W H id x y s).pointers = setPointer s.pointers ⟨id, x, y⟩ := by
  rw [handlePointerDown]
  rw [updateGesture_pointers]
  split
  · rw [handleSinglePointerDown_pointers]
  · rfl

/-- A pointer-down from an empty pointer map always yields the fresh
single-pointer translate gesture, never a stale transform. -/
lemma down_from_empty (W H : ℝ) (id : ℕ) (x y : ℝ) (s : SysState)
    (hs : s.pointers = []) :
    (handlePointerDown W H id x y s).lastGesture =
      some (.translate (x / W) (y / H)) := by
  obtain ⟨ps, g, pr, sel⟩ := s
  simp only at hs
  subst hs
  cases hfind : findPropAtPosition W H pr (x / W) (y / H) <;>
    simp [handlePointerDown, setPointer, handleSinglePointerDown, hfind,
      updateGesture]

/-- One pointer event preserves the invariant that an empty pointer map
entails a cleared gesture. -/
lemma step_empty_inv (W H : ℝ) (s : SysState) (e : PEvent)
    (h : s.pointers = [] → s.lastGesture = none) :
    (step W H s e).pointers = [] → (step W H s e).lastGesture = none := by
  cases e with
  | down id x y =>
      intro hnil
      rw [step, handlePointerDown_pointers] at hnil
      exact absurd hnil (setPointer_ne_nil s.pointers ⟨id, x, y⟩)
  | move id x y =>
      rw [step, handlePointerMove]
      split
      · intro hnil
        rw [applyGesture_pointers, updateGesture_pointers] at hnil
        exact absurd hnil (setPointer_ne_nil s.pointers ⟨id, x, y⟩)
      · exact h
  | up id =>
      rw [step, handlePointerUp]
      split
      · intro _
        rfl
      · rename_i hlen
        intro hnil
        rw [updateGesture_pointers] at hnil
        have hnil2 : deletePointer s.pointers id = [] := hnil
        exact absurd (by simp [hnil2]) hlen
  | cancel id =>
      rw [step, handlePointerCancel, handlePointerUp]
      split
      · intro _
        rfl
      · rename_i hlen
        intro hnil
        rw [updateGesture_pointers] at hnil
        have hnil2 : deletePointer s.pointers id = [] := hnil
        exact absurd (by simp [hnil2]) hlen

/-- Every event sequence preserves the empty-pointers-entails-no-gesture
invariant. -/
lemma run_empty_inv (W H : ℝ) (seq : List PEvent) :
    ∀ s : SysState, (s.pointers = [] → s.lastGesture = none) →
      ((run W H s seq).pointers = [] → (run W H s seq).lastGesture = none) := by
  induction seq with
  | nil => intro s h; exact h
  | cons e rest ih =>
      intro s h
      rw [run, List.foldl_cons]
      exact ih (step W H s e) (step_empty_inv W H s e h)

/-- C9: after any pointer-event sequence from the initial state that ends
with zero active pointers, the retained gesture is cleared, and the next
single-pointer down derives a fresh translate gesture at the normalized
pointer position — never a stale transform. -/
theorem gesture_cleared_on_empty (W H : ℝ) (seq : List PEvent)
    (h : (run W H initState seq).pointers = []) :
    (run W H initState seq).lastGesture = none ∧
    ∀ (id : ℕ) (x y : ℝ),
      (step W H (run W H initState seq) (.down id x y)).lastGesture =
        some (.translate (x / W) (y / H)) := by
  constructor
  · exact run_empty_inv W H seq initState (fun _ => rfl) h
  · intro id x y
    exact down_from_empty W H id x y (run W H initState seq) h

/-- Witness for gesture_cleared_on_empty: the sequence down-then-up of
pointer 0 ends with zero active pointers, and the retained gesture after
it is indeed cleared. -/
theorem gesture_cleared_on_empty_witness :
    (run 1000 1000 initState [.down 0 10 10, .up 0]).pointers = [] ∧
    (run 1000 1000 initState [.down 0 10 10, .up 0]).lastGesture = none := by
  have h : (run 1000 1000 initState [.down 0 10 10, .up 0]).pointers = [] := rfl
  exact ⟨h, (gesture_cleared_on_empty 1000 1000 [.down 0 10 10, .up 0] h).1⟩

/-- C10: pointer-down, pointer-up and pointer-cancel never mutate any
prop's pose — the props list is untouched by these handlers (they only
update the active-pointer map, the selection and the retained gesture);
moreover up and cancel do not change the selection either.  Gestures reach
a prop's pose only through the pointer-move handler. -/
theorem pointer_down_up_cancel_preserve_props (W H : ℝ) (s : SysState)
    (id : ℕ) (x y : ℝ) :
    (step W H s (.down id x y)).props = s.props ∧
    (step W H s (.up id)).props = s.props ∧
    (step W H s (.up id)).selectedProp = s.selectedProp ∧
    (step W H s (.cancel id)).props = s.props ∧
    (step W H s (.cancel id)).selectedProp = s.selectedProp := by
  refine ⟨?_, ?_, ?_, ?_, ?_⟩
  · rw [step, handlePointerDown, updateGesture_props]
    split
    · rw [handleSinglePointerDown_props]
    · rfl
  · rw [step, handlePointerUp]
    split
    · rfl
    · rw [updateGesture_props]
  · rw [step, handlePointerUp]
    split
    · rfl
    · rw [updateGesture_selectedProp]
  · rw [step, handlePointerCancel, handlePointerUp]
    split
    · rfl
    · rw [updateGesture_props]
  · rw [step, handlePointerCancel, handlePointerUp]
    split
    · rfl
    · rw [updateGesture_selectedProp]

end

end Photobooth
